import Mathlib

/-!
Verification of the forky git-client core (src/src-tauri/src/git/repository.rs)
against its natural-language specification.

Shallow embedding conventions:
* Rust `String` / `&str` values that carry free text (stdout, stderr, messages,
  file content lines) are modelled as `List Char`; short closed tags such as
  `"add"` or `"stash_pop_conflict"` are Lean `String`s.
* Raw file bytes (`Vec<u8>` / blob content) are modelled as `List Nat`, one
  entry per byte.  The lossy UTF-8 decode applied by the source before line
  splitting is modelled as the identity on bytes (valid-UTF-8 inputs); this is
  irrelevant to every claim below, none of which concerns invalid sequences.
* Rust byte indices from `str::find` are modelled as character indices; all
  slicing in the source uses the indices in the same unit, so the translation
  is consistent.
* `to_lowercase` is modelled as ASCII lowercasing (`Char.toLower`); every
  pattern the source compares against is pure ASCII-lowercase or already
  lowercase, so the two agree on all inputs relevant to the claims.
* The external process facility is modelled by `ProcOutput` (exit flag plus
  captured stdout/stderr); a spawn failure is `none`, mirroring the only
  `Err` path of the classified operations.
* The read-only diff collaborator (libgit2 `Diff::foreach`) is modelled as the
  list of callback events `DiffEvent` it delivers, in order.
-/

namespace Forky

/-- Single-quote character, kept out of string literals. -/
def sq : Char := Char.ofNat 39

/-- Newline character. -/
def nl : Char := Char.ofNat 10

/-- Characters of a string literal. -/
def strL (s : String) : List Char := s.toList

/-- ASCII whitespace test, modelling char::is_whitespace on the inputs used. -/
def isWs (c : Char) : Bool := c = ' ' || c = '\t' || c = nl || c = Char.ofNat 13

/-- Decides whether the first list is a prefix of the second. -/
def isPre [DecidableEq α] : List α → List α → Bool
  | [], _ => true
  | _ :: _, [] => false
  | a :: as, b :: bs => a = b && isPre as bs

/-- Decides whether `needle` occurs as a contiguous substring, modelling
Rust str::contains. -/
def containsSub [DecidableEq α] (needle : List α) : List α → Bool
  | [] => decide (needle = [])
  | x :: xs => isPre needle (x :: xs) || containsSub needle xs

/-- Index of the first occurrence of `needle`, modelling Rust str::find. -/
def findSub [DecidableEq α] (needle : List α) : List α → Option Nat
  | [] => if needle = [] then some 0 else none
  | x :: xs => if isPre needle (x :: xs) then some 0 else (findSub needle xs).map (· + 1)

/-- Index of the first occurrence of a character, modelling str::find(char). -/
def findChar (c : Char) : List Char → Option Nat
  | [] => none
  | x :: xs => if x = c then some 0 else (findChar c xs).map (· + 1)

/-- Drops the longest suffix whose elements satisfy `p`. -/
def dropEndWhile (p : α → Bool) (l : List α) : List α :=
  (l.reverse.dropWhile p).reverse

/-- Trim of leading and trailing whitespace, modelling str::trim. -/
def trimChars (l : List Char) : List Char :=
  dropEndWhile isWs (l.dropWhile isWs)

/-- Splits at every occurrence of `sep`; k separators yield k+1 segments. -/
def splitOnSep [DecidableEq α] (sep : α) : List α → List (List α)
  | [] => [[]]
  | c :: cs =>
    let r := splitOnSep sep cs
    if c = sep then [] :: r
    else
      match r with
      | [] => [[c]]
      | h :: t => (c :: h) :: t

/-- Removes one trailing `cr` element if present. -/
def stripTrail [DecidableEq α] (cr : α) (l : List α) : List α :=
  if l.getLast? = some cr then l.dropLast else l

/-- Applies `f` to every element except the last one. -/
def mapButLast (f : α → α) : List α → List α
  | [] => []
  | [x] => [x]
  | x :: y :: t => f x :: mapButLast f (y :: t)

/-- Line iterator of Rust str::lines generalised over the element type:
segments split at line feeds, a final line terminator optional, and a
carriage return stripped only when it stood before a line feed. -/
def rustLinesGen [DecidableEq α] (lf cr : α) (l : List α) : List (List α) :=
  let parts := splitOnSep lf l
  if parts.getLast? = some [] then (parts.dropLast).map (stripTrail cr)
  else mapButLast (stripTrail cr) parts

/-- Lines of a byte sequence (line feed byte 10, carriage return byte 13). -/
def rustLines (content : List Nat) : List (List Nat) :=
  rustLinesGen 10 13 content

/-- Lines of a character sequence. -/
def rustLinesC (s : List Char) : List (List Char) :=
  rustLinesGen nl (Char.ofNat 13) s

/-- Worker for whitespace splitting carrying the reversed current word. -/
def splitWsGo (cur : List Char) : List Char → List (List Char)
  | [] => if cur = [] then [] else [cur.reverse]
  | c :: cs =>
    if isWs c then
      if cur = [] then splitWsGo [] cs
      else cur.reverse :: splitWsGo [] cs
    else splitWsGo (c :: cur) cs

/-- Whitespace-separated words, modelling str::split_whitespace. -/
def splitWhitespace (l : List Char) : List (List Char) :=
  splitWsGo [] l

/-- Lowercased copy, modelling str::to_lowercase (ASCII model). -/
def lowerChars (l : List Char) : List Char :=
  l.map Char.toLower

/-- Containment of a string-literal pattern inside character text. -/
def hasSub (pat : String) (l : List Char) : Bool :=
  containsSub (strL pat) l

/-- Containment of an arbitrary character pattern inside character text. -/
def hasSubL (pat : List Char) (l : List Char) : Bool :=
  containsSub pat l

/-- Test that text starts with a string-literal pattern. -/
def startsWithStr (pat : String) (l : List Char) : Bool :=
  isPre (strL pat) l

/-!
Data model of the operation-result classifier, from repository.rs lines
942 to 968 (`GitOperationResult`, `SshHostVerification`, `CredentialRequest`).
-/

/-- SSH host-verification payload of a classified result. -/
structure SshHostVerification where
  host : List Char
  key_type : List Char
  fingerprint : List Char
deriving DecidableEq

/-- Credential request payload of a classified result. -/
structure CredentialRequest where
  credential_type : String
  prompt : List Char
  host : Option (List Char)
deriving DecidableEq

/-- Typed result of a classified version-control invocation. -/
structure GitOperationResult where
  success : Bool
  message : List Char
  requires_ssh_verification : Option SshHostVerification
  requires_credential : Option CredentialRequest
  error_type : Option String
  conflicting_files : Option (List (List Char))
deriving DecidableEq

/-- Error-type tagging from stderr, from repository.rs lines 970 to 1012:
an ordered list of case-insensitive substring matchers, first match wins. -/
def detect_error_type (stderr : List Char) : Option String :=
  let lower := lowerChars stderr
  if hasSub "host key verification failed" lower then
    some "ssh_host_verification_failed"
  else if hasSub "permission denied" lower || hasSub "publickey" lower then
    some "authentication_failed"
  else if hasSub "could not read from remote" lower
      || hasSub "no se pudo leer del repositorio remoto" lower then
    some "remote_access_failed"
  else if hasSub "connection refused" lower || hasSub "conexión rechazada" lower then
    some "connection_refused"
  else if hasSub "connection timed out" lower || hasSub "tiempo de espera agotado" lower then
    some "connection_timeout"
  else if hasSub "could not resolve host" lower || hasSub "no se pudo resolver" lower then
    some "host_not_found"
  else if hasSub "would be overwritten by checkout" lower
      || hasSub "serían sobrescritos por checkout" lower
      || hasSub "serán sobrescritos por checkout" lower then
    some "checkout_would_overwrite"
  else if hasSub "divergent branches" lower
      || hasSub "need to specify how to reconcile" lower
      || hasSub "ramas divergentes" lower then
    some "divergent_branches"
  else if hasSub "fatal:" lower then
    some "git_error"
  else
    none

/-- Loop body of conflicting-file extraction, carrying the in-file-list flag,
from repository.rs lines 1014 to 1047. -/
def extract_conflicting_files_go (inList : Bool) : List (List Char) → List (List Char)
  | [] => []
  | line :: rest =>
    let t := trimChars line
    if hasSub "would be overwritten" t
        || hasSub "serían sobrescritos" t
        || hasSub "serán sobrescritos" t then
      extract_conflicting_files_go true rest
    else if startsWithStr "Please" t
        || startsWithStr "Por favor" t
        || hasSub "Aborting" t
        || hasSub "Abortando" t then
      []
    else if inList && !(t = []) && !(startsWithStr "error" t) then
      t :: extract_conflicting_files_go inList rest
    else
      extract_conflicting_files_go inList rest

/-- Conflicting-file list captured between a marker line and a terminator. -/
def extract_conflicting_files (stderr : List Char) : List (List Char) :=
  extract_conflicting_files_go false (rustLinesC stderr)

/-- Host extraction from the first quoted span of the text, used by the
credential-prompt parser. -/
def extract_quoted_host (output : List Char) : Option (List Char) :=
  match findChar sq output with
  | some start =>
    let rest := output.drop (start + 1)
    (findChar sq rest).map (fun e => rest.take e)
  | none => none

/-- Credential-prompt recognition on combined output, from repository.rs
lines 1049 to 1096; prompts recognized in English and Spanish. -/
def parse_credential_request (output : List Char) : Option CredentialRequest :=
  let lower := lowerChars output
  if hasSub "username for" lower || hasSub "usuario para" lower then
    some { credential_type := "username", prompt := trimChars output,
           host := extract_quoted_host output }
  else if hasSub "password for" lower || hasSub "contraseña para" lower then
    some { credential_type := "password", prompt := trimChars output,
           host := extract_quoted_host output }
  else if hasSub "enter passphrase" lower || hasSub "introduzca la contraseña" lower then
    some { credential_type := "passphrase", prompt := trimChars output, host := none }
  else
    none

/-- Pattern "host" followed by a space and an opening quote. -/
def hostQuotePat : List Char := strL "host " ++ [sq]

/-- Pattern for the host-authenticity message, with its apostrophe. -/
def cantBeEstablishedPat : List Char := strL "can" ++ sq :: strL "t be established"

/-- Key-type and fingerprint extraction from the first line containing
"key fingerprint", from repository.rs lines 1190 to 1210. -/
def scanFingerprint (stderr : List Char) : List Char × List Char :=
  match (rustLinesC stderr).find? (fun l => hasSub "key fingerprint" l) with
  | none => ([], [])
  | some line =>
    let parts := splitWhitespace line
    if parts.length ≥ 4 then
      let key_type := parts.headD []
      let fingerprint :=
        match parts.find? (fun p => isPre (strL "SHA256:") p || isPre (strL "MD5:") p) with
        | some p => dropEndWhile (fun c => c = '.') p
        | none => []
      (key_type, fingerprint)
    else ([], [])

/-- SSH host-verification prompt recognition on stderr, from repository.rs
lines 1162 to 1221. -/
def parse_ssh_host_verification (stderr : List Char) : Option SshHostVerification :=
  if !(hasSub "authenticity of host" stderr) || !(hasSubL cantBeEstablishedPat stderr) then
    none
  else
    match findSub hostQuotePat stderr with
    | none => none
    | some start =>
      let after_host := stderr.drop (start + 6)
      match findChar sq after_host with
      | none => none
      | some e =>
        let host_part := after_host.take e
        let host :=
          match findChar ' ' host_part with
          | some sp => host_part.take sp
          | none => host_part
        let kf := scanFingerprint stderr
        if !(host = []) && !(kf.2 = []) then
          some { host := host, key_type := kf.1, fingerprint := kf.2 }
        else none

/-- Failure-branch classification, from repository.rs lines 1098 to 1148:
SSH verification first, then credential request on combined stdout and
stderr, then error-type tagging with conflicting-file extraction for the
checkout-overwrite tag. -/
def create_error_result (stderr stdout : List Char) : GitOperationResult :=
  match parse_ssh_host_verification stderr with
  | some v =>
    { success := false, message := strL "SSH host verification required",
      requires_ssh_verification := some v, requires_credential := none,
      error_type := some "ssh_host_verification", conflicting_files := none }
  | none =>
    let combined := stdout ++ nl :: stderr
    match parse_credential_request combined with
    | some c =>
      { success := false, message := c.prompt,
        requires_ssh_verification := none, requires_credential := some c,
        error_type := some "credential_required", conflicting_files := none }
    | none =>
      let error_type := detect_error_type stderr
      let conflicting_files :=
        if error_type = some "checkout_would_overwrite" then
          let files := extract_conflicting_files stderr
          if files = [] then none else some files
        else none
      { success := false, message := trimChars stderr,
        requires_ssh_verification := none, requires_credential := none,
        error_type := error_type, conflicting_files := conflicting_files }

/-- Success result with every optional field left empty, from repository.rs
lines 1150 to 1160. -/
def create_success_result (message : List Char) : GitOperationResult :=
  { success := true, message := message,
    requires_ssh_verification := none, requires_credential := none,
    error_type := none, conflicting_files := none }

/-!
Classified operations.  Each is a pure function of the subprocess outcome:
`none` models a spawn failure (the only `Err` path in the source), and
`some o` the started process with its exit flag and captured output.
-/

/-- Captured outcome of a started subprocess. -/
structure ProcOutput where
  exit_ok : Bool
  stdout : List Char
  stderr : List Char
deriving DecidableEq

/-- Classification step of git pull, from repository.rs lines 1286 to 1316. -/
def git_pull_classify (exit_ok : Bool) (stdout stderr : List Char) : GitOperationResult :=
  if exit_ok then
    let message :=
      if hasSub "Already up to date" stdout || hasSub "Ya está actualizado" stdout then
        strL "Already up to date"
      else trimChars stdout
    create_success_result message
  else
    create_error_result stderr stdout

/-- Full git pull including the spawn step. -/
def git_pull (spawn : Option ProcOutput) : Except (List Char) GitOperationResult :=
  match spawn with
  | none => Except.error (strL "Failed to execute git pull")
  | some o => Except.ok (git_pull_classify o.exit_ok o.stdout o.stderr)

/-- Classification step of git push, from repository.rs lines 1318 to 1351. -/
def git_push_classify (exit_ok : Bool) (stdout stderr : List Char) : GitOperationResult :=
  if exit_ok then
    let message :=
      if hasSub "Everything up-to-date" stderr || hasSub "Todo actualizado" stderr then
        strL "Everything up-to-date"
      else if stdout = [] && stderr = [] then
        strL "Push completed successfully"
      else trimChars (stdout ++ stderr)
    create_success_result message
  else
    create_error_result stderr stdout

/-- Full git push including the spawn step. -/
def git_push (spawn : Option ProcOutput) : Except (List Char) GitOperationResult :=
  match spawn with
  | none => Except.error (strL "Failed to execute git push")
  | some o => Except.ok (git_push_classify o.exit_ok o.stdout o.stderr)

/-- Classification step of git fetch, from repository.rs lines 1353 to 1383. -/
def git_fetch_classify (exit_ok : Bool) (stdout stderr : List Char) : GitOperationResult :=
  if exit_ok then
    let message :=
      if stdout = [] && stderr = [] then strL "Fetch completed"
      else trimChars (stdout ++ stderr)
    create_success_result message
  else
    create_error_result stderr stdout

/-- Classification step of git checkout, from repository.rs lines 1658
to 1688. -/
def git_checkout_classify (branch : List Char) (exit_ok : Bool)
    (stdout stderr : List Char) : GitOperationResult :=
  if exit_ok then
    let message :=
      if hasSub "Switched to branch" stderr || hasSub "Cambiado a rama" stderr then
        trimChars stderr
      else if !(stdout = []) then trimChars stdout
      else strL "Switched to branch " ++ sq :: branch ++ [sq]
    create_success_result message
  else
    create_error_result stderr stdout

/-- Checkout with automatic stash and optional pop, from repository.rs lines
1690 to 1801.  The three subprocess outcomes are the stash push, the
checkout, and the stash pop; on a failed checkout the source also fires a
restoring stash pop whose outcome is ignored, so it is not a parameter. -/
def git_checkout_with_stash (branch : List Char) (restore_changes : Bool)
    (stash checkout pop : Option ProcOutput) :
    Except (List Char) GitOperationResult :=
  match stash with
  | none => Except.error (strL "Failed to execute git stash")
  | some so =>
    if so.exit_ok then
      match checkout with
      | none => Except.error (strL "Failed to execute git checkout")
      | some co =>
        if co.exit_ok then
          if restore_changes then
            match pop with
            | none => Except.error (strL "Failed to execute git stash pop")
            | some po =>
              if po.exit_ok then
                Except.ok
                  { success := true,
                    message := strL "Switched to " ++ sq :: branch ++ sq ::
                      strL " and restored changes",
                    requires_ssh_verification := none, requires_credential := none,
                    error_type := none, conflicting_files := none }
              else
                Except.ok
                  { success := true,
                    message := strL "Switched to " ++ sq :: branch ++ sq ::
                      strL " but failed to restore changes. Your changes are in stash. Error: "
                      ++ trimChars po.stderr,
                    requires_ssh_verification := none, requires_credential := none,
                    error_type := some "stash_pop_conflict", conflicting_files := none }
          else
            Except.ok
              { success := true,
                message := strL "Switched to " ++ sq :: branch ++ sq ::
                  strL " (changes saved in stash)",
                requires_ssh_verification := none, requires_credential := none,
                error_type := none, conflicting_files := none }
        else
          Except.ok
            { success := false,
              message := strL "Checkout failed (stash restored): " ++ trimChars co.stderr,
              requires_ssh_verification := none, requires_credential := none,
              error_type := some "checkout_failed", conflicting_files := none }
    else
      Except.ok
        { success := false,
          message := strL "Failed to stash changes: " ++ trimChars so.stderr,
          requires_ssh_verification := none, requires_credential := none,
          error_type := some "stash_failed", conflicting_files := none }

/-!
Diff builder data model, from repository.rs (structs `DiffLine`, `DiffHunk`,
`DiffInfo`).  Line content and file content are raw bytes.
-/

/-- One line of a structured diff. -/
structure DiffLine where
  content : List Nat
  line_type : String
  old_line_no : Option Nat
  new_line_no : Option Nat
deriving DecidableEq

/-- One hunk of a structured diff. -/
structure DiffHunk where
  old_start : Nat
  old_lines : Nat
  new_start : Nat
  new_lines : Nat
  lines : List DiffLine
deriving DecidableEq

/-- Structured diff of one file between two comparison points. -/
structure DiffInfo where
  file_path : String
  old_content : Option (List Nat)
  new_content : Option (List Nat)
  hunks : List DiffHunk
  is_binary : Bool
  binary_type : Option String
  file_size : Option Nat
deriving DecidableEq

/-- Null-byte heuristic on the first 8000 bytes, from repository.rs lines
476 to 481. -/
def is_binary_content (content : List Nat) : Bool :=
  (content.take 8000).contains 0

/-- Extension-based binary-kind classification, from repository.rs lines
483 to 501; total, with an unconditional fallback to "other". -/
def get_binary_type (file_path : String) : Option String :=
  let lower := file_path.map Char.toLower
  if lower.endsWith ".png" || lower.endsWith ".jpg" || lower.endsWith ".jpeg"
      || lower.endsWith ".gif" || lower.endsWith ".bmp" || lower.endsWith ".webp"
      || lower.endsWith ".svg" || lower.endsWith ".ico" then
    some "image"
  else if lower.endsWith ".pdf" then
    some "pdf"
  else
    some "other"

/-- Callback event delivered by the diff collaborator during a walk: a file
delta with its binary flag, a binary-content notification, a hunk header, or
a content line with its origin tag and line numbers. -/
inductive DiffEvent where
  | delta (is_binary : Bool)
  | binary
  | hunk (old_start old_lines new_start new_lines : Nat)
  | line (origin : Char) (content : List Nat) (old_lineno new_lineno : Option Nat)
deriving DecidableEq

/-- Line-type tag assigned to a collaborator line origin, from repository.rs
lines 536 to 541: plus is add, minus is delete, anything else context. -/
def lineTypeOf (origin : Char) : String :=
  if origin = '+' then "add"
  else if origin = '-' then "delete"
  else "context"

/-- Appends a line to the last hunk of the list, leaving the list unchanged
when it is empty (the source ignores lines arriving before any hunk). -/
def appendToLast (hs : List DiffHunk) (l : DiffLine) : List DiffHunk :=
  match hs with
  | [] => []
  | [h] => [{ h with lines := h.lines ++ [l] }]
  | h :: t => h :: appendToLast t l

/-- State transition of the diff walk, from the four callbacks of
repository.rs lines 510 to 554: accumulated hunks plus the binary flag. -/
def parse_diff_step (st : List DiffHunk × Bool) (e : DiffEvent) :
    List DiffHunk × Bool :=
  match e with
  | .delta b => (st.1, st.2 || b)
  | .binary => (st.1, true)
  | .hunk os ol ns nlines =>
    (st.1 ++ [{ old_start := os, old_lines := ol, new_start := ns,
                new_lines := nlines, lines := [] }], st.2)
  | .line origin content ol nlno =>
    (appendToLast st.1
      { content := content, line_type := lineTypeOf origin,
        old_line_no := ol, new_line_no := nlno }, st.2)

/-- Structured diff built from the collaborator event stream, from
repository.rs lines 503 to 573. -/
def parse_diff (events : List DiffEvent) (file_path : String) : DiffInfo :=
  let st := events.foldl parse_diff_step ([], false)
  { file_path := file_path, old_content := none, new_content := none,
    hunks := st.1, is_binary := st.2,
    binary_type := if st.2 then get_binary_type file_path else none,
    file_size := none }

/-- Add-line synthesized for one enumerated line of an untracked file, from
the closure at repository.rs lines 601 to 610: content regains its newline,
the new line number is the one-based index. -/
def untrackedLine (p : Nat × List Nat) : DiffLine :=
  { content := p.2 ++ [10], line_type := "add",
    old_line_no := none, new_line_no := some (p.1 + 1) }

/-- Untracked-file diff synthesis, from repository.rs lines 575 to 629:
binary content short-circuits to zero hunks, otherwise one all-add hunk. -/
def get_untracked_file_diff (file_path : String) (content : List Nat) : DiffInfo :=
  let file_size := content.length
  if is_binary_content content then
    { file_path := file_path, old_content := none, new_content := none,
      hunks := [], is_binary := true, binary_type := get_binary_type file_path,
      file_size := some file_size }
  else
    let lines := rustLines content
    let diff_lines := lines.enum.map untrackedLine
    { file_path := file_path, old_content := none, new_content := some content,
      hunks := [{ old_start := 0, old_lines := 0, new_start := 1,
                  new_lines := lines.length, lines := diff_lines }],
      is_binary := false, binary_type := none, file_size := some file_size }

/-- Delete-line synthesized for one enumerated line of a deleted file, from
the closure at repository.rs lines 664 to 673. -/
def deletedLine (p : Nat × List Nat) : DiffLine :=
  { content := p.2 ++ [10], line_type := "delete",
    old_line_no := some (p.1 + 1), new_line_no := none }

/-- Deleted-file diff synthesis from the last-commit blob, from repository.rs
lines 631 to 692: the blob binary flag or the null-byte heuristic
short-circuits to zero hunks, otherwise one all-delete hunk. -/
def get_deleted_file_diff (file_path : String) (blob_is_binary : Bool)
    (content : List Nat) : DiffInfo :=
  let file_size := content.length
  if blob_is_binary || is_binary_content content then
    { file_path := file_path, old_content := none, new_content := none,
      hunks := [], is_binary := true, binary_type := get_binary_type file_path,
      file_size := some file_size }
  else
    let lines := rustLines content
    let diff_lines := lines.enum.map deletedLine
    { file_path := file_path, old_content := some content, new_content := none,
      hunks := [{ old_start := 1, old_lines := lines.length, new_start := 0,
                  new_lines := 0, lines := diff_lines }],
      is_binary := false, binary_type := none, file_size := some file_size }

/-!
Hunk patch engine, from repository.rs lines 770 to 816.  Hunk data arrives
from the frontend as text, modelled as characters.
-/

/-- One line of frontend hunk data. -/
structure HunkLineData where
  content : List Char
  line_type : String
deriving DecidableEq

/-- Frontend hunk data. -/
structure HunkData where
  old_start : Nat
  old_lines : Nat
  new_start : Nat
  new_lines : Nat
  lines : List HunkLineData
deriving DecidableEq

/-- Marker character for a patch line of the given type, from repository.rs
lines 802 to 808: anything other than add or delete renders as context. -/
def lineMark (t : String) : Char :=
  if t = "add" then '+'
  else if t = "delete" then '-'
  else ' '

/-- Test for a line-feed or carriage-return character. -/
def isEol (c : Char) : Bool := c = nl || c = Char.ofNat 13

/-- Strip of every trailing line-feed or carriage-return character, from
trim_end_matches in repository.rs line 811. -/
def stripEol (c : List Char) : List Char :=
  dropEndWhile isEol c

/-- Test that text ends in a line-feed or carriage-return character. -/
def hasTrailingEol (l : List Char) : Bool :=
  (l.getLast?.map isEol).getD false

/-- Rendering of one hunk line: marker, stripped content, one newline. -/
def emitLine (l : HunkLineData) : List Char :=
  lineMark l.line_type :: stripEol l.content ++ [nl]

/-- Decimal rendering of a hunk-header number. -/
def natChars (n : Nat) : List Char :=
  strL (Nat.repr n)

/-- Fixed diff header naming the file path, from repository.rs lines 790
to 793. -/
def patchHeader (file_path : List Char) : List Char :=
  strL "diff --git a/" ++ file_path ++ strL " b/" ++ file_path ++ [nl]
    ++ strL "--- a/" ++ file_path ++ [nl]
    ++ strL "+++ b/" ++ file_path ++ [nl]

/-- Hunk header line, from repository.rs lines 795 to 799. -/
def hunkHeader (h : HunkData) : List Char :=
  strL "@@ -" ++ natChars h.old_start ++ strL "," ++ natChars h.old_lines
    ++ strL " +" ++ natChars h.new_start ++ strL "," ++ natChars h.new_lines
    ++ strL " @@" ++ [nl]

/-- Unified-diff patch document for one hunk, from repository.rs lines 786
to 816, built by successive pushes onto an accumulator string. -/
def generate_patch (file_path : List Char) (hunk : HunkData) : List Char :=
  hunk.lines.foldl (fun acc l => acc ++ emitLine l)
    (patchHeader file_path ++ hunkHeader hunk)

/-- Projection of the success value of an Except. -/
def okPart (x : Except ε α) : Option α :=
  match x with
  | .ok a => some a
  | .error _ => none

/-!
Concrete classifier inputs used in the example-based theorems.
-/

/-- Example stderr from the specification: the host-authenticity prompt for
example.com followed by an ED25519 fingerprint line. -/
def sshExampleStderr : List Char :=
  strL "The authenticity of host " ++ sq :: strL "example.com (1.2.3.4)" ++ sq ::
  strL " can" ++ sq :: strL "t be established.\nED25519 key fingerprint is SHA256:abcd1234."

/-- Expected payload extracted from the example stderr. -/
def sshExampleVerification : SshHostVerification :=
  { host := strL "example.com", key_type := strL "ED25519",
    fingerprint := strL "SHA256:abcd1234" }

/-- Second example stderr: a host without a parenthesized address and an
RSA key with an MD5 fingerprint ending in a period. -/
def sshExampleStderr2 : List Char :=
  strL "The authenticity of host " ++ sq :: strL "gitlab.com" ++ sq ::
  strL " can" ++ sq :: strL "t be established.\nRSA key fingerprint is MD5:aa:bb:cc."

/-- Outcome of a subprocess that exited cleanly with no output. -/
def pOkOutcome : ProcOutput := { exit_ok := true, stdout := [], stderr := [] }

/-- Outcome of a subprocess that failed with a short stderr. -/
def pFailOutcome : ProcOutput := { exit_ok := false, stdout := [], stderr := strL "conflict" }

/-!
Supporting lemmas on the classifier.
-/

/-- Every result of the failure-branch classifier carries a false success
flag, whichever of its three branches fires. -/
theorem create_error_result_success (stderr stdout : List Char) :
    (create_error_result stderr stdout).success = false := by
  unfold create_error_result
  split
  · rfl
  · dsimp only
    split
    · rfl
    · rfl

/-!
Claim theorems.
-/

/-- C4: on stderr consisting of the authenticity-of-host line for
example.com (1.2.3.4) followed by the line ED25519 key fingerprint is
SHA256:abcd1234 with a trailing period, the classifier extracts
host example.com (text between the quote marks truncated at the first
space), key type ED25519, and fingerprint SHA256:abcd1234 with the trailing
period removed, yielding the SSH-verification payload; a second input with
an unparenthesized host and an MD5 fingerprint exercises the same quoted
extraction without space truncation. -/
theorem C4_ssh_extraction_example :
    parse_ssh_host_verification sshExampleStderr = some sshExampleVerification ∧
    parse_ssh_host_verification sshExampleStderr2
      = some { host := strL "gitlab.com", key_type := strL "RSA",
               fingerprint := strL "MD5:aa:bb:cc" } := by
  decide

/-- C3 counterexample: the claim says any invocation whose stderr matches the
authenticity-of-host pattern classifies as SSH-verification-required rather
than success; but the source checks the exit status first, so a zero-exit
invocation with that stderr yields a plain success result with no
SSH-verification payload, even though the pattern parser accepts the
stderr. -/
theorem C3_counterexample :
    (parse_ssh_host_verification sshExampleStderr).isSome = true ∧
    (git_pull_classify true [] sshExampleStderr).success = true ∧
    (git_pull_classify true [] sshExampleStderr).requires_ssh_verification = none := by
  decide

/-- C3 amended: the ordered first-match classification applies only within
the non-zero-exit branch: there, an SSH host-verification pattern in stderr
wins first, else a credential prompt in combined stdout and stderr, else the
error-type tagging over stderr with the trimmed raw stderr as message; a
zero exit always yields a success result with no SSH payload, regardless of
stderr content. -/
theorem C3_amended_classification_order
    (a b c d e f : List Char) (v : SshHostVerification)
    (h1 : parse_ssh_host_verification b = some v)
    (h2 : parse_ssh_host_verification d = none)
    (h3 : parse_ssh_host_verification f = none)
    (h4 : parse_credential_request (e ++ nl :: f) = none) :
    (git_pull_classify true a b).success = true ∧
    (git_pull_classify true a b).requires_ssh_verification = none ∧
    (git_pull_classify false a b).success = false ∧
    (git_pull_classify false a b).requires_ssh_verification = some v ∧
    (git_pull_classify false a b).requires_credential = none ∧
    (git_pull_classify false c d).requires_credential
      = parse_credential_request (c ++ nl :: d) ∧
    (git_pull_classify false e f).error_type = detect_error_type f ∧
    (git_pull_classify false e f).message = trimChars f := by
  refine ⟨by simp [git_pull_classify, create_success_result],
          by simp [git_pull_classify, create_success_result], ?_, ?_, ?_, ?_, ?_, ?_⟩
  · simp [git_pull_classify, create_error_result_success]
  · simp [git_pull_classify, create_error_result, h1]
  · simp [git_pull_classify, create_error_result, h1]
  · cases h5 : parse_credential_request (c ++ nl :: d) with
    | some cr => simp [git_pull_classify, create_error_result, h2, h5]
    | none => simp [git_pull_classify, create_error_result, h2, h5]
  · simp [git_pull_classify, create_error_result, h3, h4]
  · simp [git_pull_classify, create_error_result, h3, h4]

/-- Witness for the amended C3 theorem at the concrete example stderr. -/
theorem C3_amended_witness :
    parse_ssh_host_verification sshExampleStderr = some sshExampleVerification ∧
    ((git_pull_classify true [] sshExampleStderr).success = true ∧
     (git_pull_classify true [] sshExampleStderr).requires_ssh_verification = none ∧
     (git_pull_classify false [] sshExampleStderr).success = false ∧
     (git_pull_classify false [] sshExampleStderr).requires_ssh_verification
       = some sshExampleVerification ∧
     (git_pull_classify false [] sshExampleStderr).requires_credential = none ∧
     (git_pull_classify false [] []).requires_credential
       = parse_credential_request ([] ++ nl :: []) ∧
     (git_pull_classify false [] []).error_type = detect_error_type [] ∧
     (git_pull_classify false [] []).message = trimChars []) :=
  ⟨by decide,
   C3_amended_classification_order [] sshExampleStderr [] [] [] [] sshExampleVerification
     (by decide) (by decide) (by decide) (by decide)⟩

/-- C1 counterexample: the claim says a true success flag implies every
optional field is empty, but when checkout-with-stash succeeds in switching
and then fails to pop the stash, the source returns success true together
with error type stash_pop_conflict. -/
theorem C1_counterexample :
    (okPart (git_checkout_with_stash (strL "main") true (some pOkOutcome)
        (some pOkOutcome) (some pFailOutcome))).map
      (fun r => (r.success, r.error_type))
      = some (true, some "stash_pop_conflict") := by
  decide

/-- C1 amended: for every result produced by the classified operations (pull,
push, fetch, checkout, checkout-with-stash), a true success flag implies the
SSH-verification payload, the credential request, and the conflicting-file
list are all empty, and the error-type tag is empty as well except in the
single stash-pop-failure path of checkout-with-stash, where it is
stash_pop_conflict. -/
theorem C1_amended_success_invariant
    (r : GitOperationResult) (eo rc : Bool) (so se b : List Char)
    (st ck pp : Option ProcOutput)
    (hp : r = git_pull_classify eo so se ∨ r = git_push_classify eo so se ∨
          r = git_fetch_classify eo so se ∨ r = git_checkout_classify b eo so se ∨
          git_checkout_with_stash b rc st ck pp = Except.ok r)
    (hs : r.success = true) :
    r.requires_ssh_verification = none ∧ r.requires_credential = none ∧
    r.conflicting_files = none ∧
    (r.error_type = none ∨ r.error_type = some "stash_pop_conflict") := by
  rcases hp with rfl | rfl | rfl | rfl | hws
  · cases eo with
    | true => simp [git_pull_classify, create_success_result]
    | false => simp [git_pull_classify, create_error_result_success] at hs
  · cases eo with
    | true => simp [git_push_classify, create_success_result]
    | false => simp [git_push_classify, create_error_result_success] at hs
  · cases eo with
    | true => simp [git_fetch_classify, create_success_result]
    | false => simp [git_fetch_classify, create_error_result_success] at hs
  · cases eo with
    | true => simp [git_checkout_classify, create_success_result]
    | false => simp [git_checkout_classify, create_error_result_success] at hs
  · rcases st with _ | so2
    · simp [git_checkout_with_stash] at hws
    · cases hso : so2.exit_ok with
      | false => simp [git_checkout_with_stash, hso] at hws; subst hws; simp at hs
      | true =>
        rcases ck with _ | co
        · simp [git_checkout_with_stash, hso] at hws
        · cases hco : co.exit_ok with
          | false =>
            simp [git_checkout_with_stash, hso, hco] at hws; subst hws; simp at hs
          | true =>
            cases rc with
            | false =>
              simp [git_checkout_with_stash, hso, hco] at hws; subst hws; simp
            | true =>
              rcases pp with _ | po
              · simp [git_checkout_with_stash, hso, hco] at hws
              · cases hpo : po.exit_ok with
                | false =>
                  simp [git_checkout_with_stash, hso, hco, hpo] at hws
                  subst hws; simp
                | true =>
                  simp [git_checkout_with_stash, hso, hco, hpo] at hws
                  subst hws; simp

/-- Witness for the amended C1 theorem: the stash-pop-failure path itself,
where success is true and the error tag is stash_pop_conflict. -/
theorem C1_amended_witness :
    ((git_checkout_with_stash (strL "main") true (some pOkOutcome) (some pOkOutcome)
        (some pFailOutcome)).toOption.map GitOperationResult.success = some true) ∧
    (∀ r : GitOperationResult,
      git_checkout_with_stash (strL "main") true (some pOkOutcome) (some pOkOutcome)
        (some pFailOutcome) = Except.ok r →
      r.success = true →
      r.requires_ssh_verification = none ∧ r.requires_credential = none ∧
      r.conflicting_files = none ∧
      (r.error_type = none ∨ r.error_type = some "stash_pop_conflict")) :=
  ⟨by decide,
   fun r hws hs =>
     C1_amended_success_invariant r true true [] [] (strL "main")
       (some pOkOutcome) (some pOkOutcome) (some pFailOutcome)
       (Or.inr (Or.inr (Or.inr (Or.inr hws)))) hs⟩

/-- Head of a list after dropping a satisfying prefix never satisfies the
predicate. -/
theorem head_dropWhile_false (p : α → Bool) (l : List α) (x : α)
    (hx : (l.dropWhile p).head? = some x) : p x = false := by
  induction l with
  | nil => simp [List.dropWhile] at hx
  | cons a t ih =>
    cases hpa : p a with
    | true =>
      rw [List.dropWhile_cons, hpa] at hx
      simp at hx
      exact ih hx
    | false =>
      rw [List.dropWhile_cons, hpa] at hx
      simp at hx
      exact hx ▸ hpa

/-- Stripping trailing end-of-line characters leaves no trailing end-of-line
character. -/
theorem hasTrailingEol_stripEol (c : List Char) :
    hasTrailingEol (stripEol c) = false := by
  unfold stripEol dropEndWhile hasTrailingEol
  rw [List.getLast?_reverse]
  cases hx : (c.reverse.dropWhile isEol).head? with
  | none => rfl
  | some x =>
    simpa using head_dropWhile_false isEol c.reverse x hx

/-- Appending an element that satisfies the predicate does not change the
result of dropping the satisfying suffix. -/
theorem dropEndWhile_append_sat (p : α → Bool) (c : List α) (x : α)
    (hx : p x = true) : dropEndWhile p (c ++ [x]) = dropEndWhile p c := by
  unfold dropEndWhile
  rw [List.reverse_append]
  simp [List.dropWhile_cons, hx]

/-- Folding the line emitter over an accumulator appends the concatenation of
the emitted lines. -/
theorem foldl_emit_eq_join (ls : List HunkLineData) (acc : List Char) :
    ls.foldl (fun a l => a ++ emitLine l) acc = acc ++ (ls.map emitLine).flatten := by
  induction ls generalizing acc with
  | nil => simp
  | cons x xs ih => simp [ih, List.append_assoc]

/-- C5: the serialized patch document is, in order, the diff header naming
the file path, the hunk header with the old and new ranges, then exactly one
output line per hunk line; each output line is the marker assigned to its
type (plus for add, minus for delete, space for context) followed by the
content with all trailing carriage-return and line-feed characters stripped
and exactly one newline appended, so content already ending in a line
terminator is not double-terminated. -/
theorem C5_patch_serialization (fp : List Char) (h : HunkData) :
    generate_patch fp h = patchHeader fp ++ hunkHeader h ++ (h.lines.map emitLine).flatten ∧
    (∀ l : HunkLineData,
      emitLine l = lineMark l.line_type :: (stripEol l.content ++ [nl])) ∧
    (∀ c : List Char, stripEol (c ++ [nl]) = stripEol c) ∧
    (∀ c : List Char, stripEol (c ++ [Char.ofNat 13]) = stripEol c) ∧
    (∀ c : List Char, hasTrailingEol (stripEol c) = false) := by
  refine ⟨?_, fun l => rfl, fun c => ?_, fun c => ?_, hasTrailingEol_stripEol⟩
  · unfold generate_patch
    rw [foldl_emit_eq_join, List.append_assoc]
  · exact dropEndWhile_append_sat isEol c nl (by decide)
  · exact dropEndWhile_append_sat isEol c (Char.ofNat 13) (by decide)

/-- Witness for the C5 theorem at a concrete path and hunk. -/
theorem C5_witness :
    generate_patch (strL "a.txt")
        { old_start := 1, old_lines := 1, new_start := 1, new_lines := 1,
          lines := [{ content := strL "x\n", line_type := "add" }] }
      = patchHeader (strL "a.txt")
        ++ hunkHeader
          { old_start := 1, old_lines := 1, new_start := 1, new_lines := 1,
            lines := [{ content := strL "x\n", line_type := "add" }] }
        ++ (([{ content := strL "x\n", line_type := "add" }] :
              List HunkLineData).map emitLine).flatten :=
  (C5_patch_serialization (strL "a.txt")
    { old_start := 1, old_lines := 1, new_start := 1, new_lines := 1,
      lines := [{ content := strL "x\n", line_type := "add" }] }).1

/-- Equation of the untracked synthesis on non-binary content. -/
theorem get_untracked_file_diff_not_binary (fp : String) (content : List Nat)
    (hbin : is_binary_content content = false) :
    get_untracked_file_diff fp content =
      { file_path := fp, old_content := none, new_content := some content,
        hunks := [{ old_start := 0, old_lines := 0, new_start := 1,
                    new_lines := (rustLines content).length,
                    lines := (rustLines content).enum.map untrackedLine }],
        is_binary := false, binary_type := none,
        file_size := some content.length } := by
  unfold get_untracked_file_diff
  simp [hbin]

/-- Equation of the untracked synthesis on binary content. -/
theorem get_untracked_file_diff_binary (fp : String) (content : List Nat)
    (hbin : is_binary_content content = true) :
    get_untracked_file_diff fp content =
      { file_path := fp, old_content := none, new_content := none,
        hunks := [], is_binary := true, binary_type := get_binary_type fp,
        file_size := some content.length } := by
  unfold get_untracked_file_diff
  simp [hbin]

/-- Equation of the deleted-file synthesis on non-binary content. -/
theorem get_deleted_file_diff_not_binary (fp : String) (bb : Bool) (content : List Nat)
    (hbin : (bb || is_binary_content content) = false) :
    get_deleted_file_diff fp bb content =
      { file_path := fp, old_content := some content, new_content := none,
        hunks := [{ old_start := 1, old_lines := (rustLines content).length,
                    new_start := 0, new_lines := 0,
                    lines := (rustLines content).enum.map deletedLine }],
        is_binary := false, binary_type := none,
        file_size := some content.length } := by
  unfold get_deleted_file_diff
  simp [hbin]

/-- Equation of the deleted-file synthesis on binary content. -/
theorem get_deleted_file_diff_binary (fp : String) (bb : Bool) (content : List Nat)
    (hbin : (bb || is_binary_content content) = true) :
    get_deleted_file_diff fp bb content =
      { file_path := fp, old_content := none, new_content := none,
        hunks := [], is_binary := true, binary_type := get_binary_type fp,
        file_size := some content.length } := by
  unfold get_deleted_file_diff
  simp [hbin]

/-- Line types of the synthesized add lines are all add. -/
theorem enumFrom_untracked_types (ls : List (List Nat)) (n : Nat) :
    ((List.enumFrom n ls).map untrackedLine).map DiffLine.line_type
      = List.replicate ls.length "add" := by
  induction ls generalizing n with
  | nil => rfl
  | cons a t ih => simp [List.enumFrom, List.replicate, untrackedLine, ih]

/-- Old line numbers of the synthesized add lines are all empty. -/
theorem enumFrom_untracked_old (ls : List (List Nat)) (n : Nat) :
    ((List.enumFrom n ls).map untrackedLine).map DiffLine.old_line_no
      = List.replicate ls.length none := by
  induction ls generalizing n with
  | nil => rfl
  | cons a t ih => simp [List.enumFrom, List.replicate, untrackedLine, ih]

/-- New line numbers of the synthesized add lines count up from the start
index plus one. -/
theorem enumFrom_untracked_new (ls : List (List Nat)) (n : Nat) :
    ((List.enumFrom n ls).map untrackedLine).map DiffLine.new_line_no
      = (List.range' (n + 1) ls.length).map some := by
  induction ls generalizing n with
  | nil => rfl
  | cons a t ih => simp [List.enumFrom, List.range', untrackedLine, ih]

/-- Line types of the synthesized delete lines are all delete. -/
theorem enumFrom_deleted_types (ls : List (List Nat)) (n : Nat) :
    ((List.enumFrom n ls).map deletedLine).map DiffLine.line_type
      = List.replicate ls.length "delete" := by
  induction ls generalizing n with
  | nil => rfl
  | cons a t ih => simp [List.enumFrom, List.replicate, deletedLine, ih]

/-- New line numbers of the synthesized delete lines are all empty. -/
theorem enumFrom_deleted_new (ls : List (List Nat)) (n : Nat) :
    ((List.enumFrom n ls).map deletedLine).map DiffLine.new_line_no
      = List.replicate ls.length none := by
  induction ls generalizing n with
  | nil => rfl
  | cons a t ih => simp [List.enumFrom, List.replicate, deletedLine, ih]

/-- Old line numbers of the synthesized delete lines count up from the start
index plus one. -/
theorem enumFrom_deleted_old (ls : List (List Nat)) (n : Nat) :
    ((List.enumFrom n ls).map deletedLine).map DiffLine.old_line_no
      = (List.range' (n + 1) ls.length).map some := by
  induction ls generalizing n with
  | nil => rfl
  | cons a t ih => simp [List.enumFrom, List.range', deletedLine, ih]

/-- C6: an untracked text file with N content lines yields a diff with
exactly one hunk whose old range is (0,0) and new range is (1,N); the hunk
has N lines, every line is typed add with no old line number, and the new
line numbers are sequentially 1 through N. -/
theorem C6_untracked_diff_shape (fp : String) (content : List Nat)
    (hbin : is_binary_content content = false) :
    (get_untracked_file_diff fp content).hunks.length = 1 ∧
    ∀ hk ∈ (get_untracked_file_diff fp content).hunks,
      hk.old_start = 0 ∧ hk.old_lines = 0 ∧ hk.new_start = 1 ∧
      hk.new_lines = (rustLines content).length ∧
      hk.lines.length = (rustLines content).length ∧
      hk.lines.map DiffLine.line_type
        = List.replicate (rustLines content).length "add" ∧
      hk.lines.map DiffLine.old_line_no
        = List.replicate (rustLines content).length none ∧
      hk.lines.map DiffLine.new_line_no
        = (List.range' 1 (rustLines content).length).map some := by
  rw [get_untracked_file_diff_not_binary fp content hbin]
  refine ⟨rfl, ?_⟩
  intro hk hmem
  rw [List.mem_singleton] at hmem
  subst hmem
  refine ⟨rfl, rfl, rfl, rfl, by simp [List.enum], ?_, ?_, ?_⟩
  · exact enumFrom_untracked_types (rustLines content) 0
  · exact enumFrom_untracked_old (rustLines content) 0
  · exact enumFrom_untracked_new (rustLines content) 0

/-- Witness for the C6 theorem on the two-line file consisting of the bytes
of letter a, a line feed, and letter b. -/
theorem C6_witness :
    is_binary_content [97, 10, 98] = false ∧
    (get_untracked_file_diff "a.txt" [97, 10, 98]).hunks.length = 1 :=
  ⟨by decide, (C6_untracked_diff_shape "a.txt" [97, 10, 98] (by decide)).1⟩

/-- C7: a tracked text file deleted from the working tree whose last-commit
blob has N lines yields a diff with exactly one hunk whose old range is
(1,N) and new range is (0,0); the hunk has N lines, every line is typed
delete with no new line number, and the old line numbers are sequentially
1 through N. -/
theorem C7_deleted_diff_shape (fp : String) (bb : Bool) (content : List Nat)
    (hbin : (bb || is_binary_content content) = false) :
    (get_deleted_file_diff fp bb content).hunks.length = 1 ∧
    ∀ hk ∈ (get_deleted_file_diff fp bb content).hunks,
      hk.old_start = 1 ∧ hk.new_start = 0 ∧ hk.new_lines = 0 ∧
      hk.old_lines = (rustLines content).length ∧
      hk.lines.length = (rustLines content).length ∧
      hk.lines.map DiffLine.line_type
        = List.replicate (rustLines content).length "delete" ∧
      hk.lines.map DiffLine.new_line_no
        = List.replicate (rustLines content).length none ∧
      hk.lines.map DiffLine.old_line_no
        = (List.range' 1 (rustLines content).length).map some := by
  rw [get_deleted_file_diff_not_binary fp bb content hbin]
  refine ⟨rfl, ?_⟩
  intro hk hmem
  rw [List.mem_singleton] at hmem
  subst hmem
  refine ⟨rfl, rfl, rfl, rfl, by simp [List.enum], ?_, ?_, ?_⟩
  · exact enumFrom_deleted_types (rustLines content) 0
  · exact enumFrom_deleted_new (rustLines content) 0
  · exact enumFrom_deleted_old (rustLines content) 0

/-- Witness for the C7 theorem on the same two-line content with a
non-binary blob flag. -/
theorem C7_witness :
    (false || is_binary_content [97, 10, 98]) = false ∧
    (get_deleted_file_diff "a.txt" false [97, 10, 98]).hunks.length = 1 :=
  ⟨by decide, (C7_deleted_diff_shape "a.txt" false [97, 10, 98] (by decide)).1⟩

/-- Binary flag contributed by one collaborator event: delta flags are
accumulated, a binary notification forces true, hunks and lines contribute
nothing. -/
def binaryStep (b : Bool) (e : DiffEvent) : Bool :=
  match e with
  | .delta db => b || db
  | .binary => true
  | .hunk _ _ _ _ => b
  | .line _ _ _ _ => b

/-- Binary flag reported by the collaborator over a whole event stream. -/
def collaboratorBinary (evs : List DiffEvent) : Bool :=
  evs.foldl binaryStep false

/-- The binary component of the diff-walk state depends only on the
collaborator events, never on file content. -/
theorem parse_diff_fold_snd (evs : List DiffEvent) :
    ∀ st : List DiffHunk × Bool,
      (evs.foldl parse_diff_step st).2 = evs.foldl binaryStep st.2 := by
  induction evs with
  | nil => intro st; rfl
  | cons e t ih =>
    intro st
    rw [List.foldl_cons, List.foldl_cons, ih]
    cases e <;> rfl

/-- The binary flag of a tracked-comparison diff is exactly the flag the
collaborator reported. -/
theorem parse_diff_is_binary (evs : List DiffEvent) (fp : String) :
    (parse_diff evs fp).is_binary = collaboratorBinary evs := by
  unfold parse_diff collaboratorBinary
  exact parse_diff_fold_snd evs ([], false)

/-- C2 counterexample: the claim says the null-byte heuristic applies in
every comparison mode independently of the collaborator; but in the tracked
comparison modes the builder never reads the file content, so a file whose
first byte is null still comes back non-binary with one hunk whenever the
collaborator reports a plain text delta. -/
theorem C2_counterexample :
    is_binary_content [0] = true ∧
    (parse_diff [DiffEvent.delta false, DiffEvent.hunk 1 1 1 1,
        DiffEvent.line '+' [0] none (some 1)] "f.txt").is_binary = false ∧
    (parse_diff [DiffEvent.delta false, DiffEvent.hunk 1 1 1 1,
        DiffEvent.line '+' [0] none (some 1)] "f.txt").hunks.length = 1 := by
  decide

/-- C2 amended: the null-byte heuristic applies only in the untracked and
deleted read modes, where content whose first 8000 bytes contain a null
byte yields the binary flag with zero hunks; in the tracked comparison
modes the binary flag is exactly what the diff collaborator reports, and
the builder applies no content heuristic of its own. -/
theorem C2_amended_null_byte_modes (fp : String) (content : List Nat) (bb : Bool)
    (hnull : is_binary_content content = true) :
    (get_untracked_file_diff fp content).is_binary = true ∧
    (get_untracked_file_diff fp content).hunks = [] ∧
    (get_deleted_file_diff fp bb content).is_binary = true ∧
    (get_deleted_file_diff fp bb content).hunks = [] ∧
    (∀ evs : List DiffEvent, (parse_diff evs fp).is_binary = collaboratorBinary evs) := by
  have hb : (bb || is_binary_content content) = true := by simp [hnull]
  rw [get_untracked_file_diff_binary fp content hnull,
    get_deleted_file_diff_binary fp bb content hb]
  exact ⟨rfl, rfl, rfl, rfl, fun evs => parse_diff_is_binary evs fp⟩

/-- Witness for the amended C2 theorem on a single null byte. -/
theorem C2_amended_witness :
    is_binary_content [0] = true ∧
    (get_untracked_file_diff "f.bin" [0]).is_binary = true ∧
    (get_untracked_file_diff "f.bin" [0]).hunks = [] :=
  ⟨by decide,
   (C2_amended_null_byte_modes "f.bin" [0] false (by decide)).1,
   (C2_amended_null_byte_modes "f.bin" [0] false (by decide)).2.1⟩

/-- Line-number discipline stated by the specification: add lines carry no
old number, delete lines carry no new number, context lines carry both. -/
def lineInvariant (l : DiffLine) : Prop :=
  (l.line_type = "add" → l.old_line_no = none) ∧
  (l.line_type = "delete" → l.new_line_no = none) ∧
  (l.line_type = "context" → l.old_line_no.isSome = true ∧ l.new_line_no.isSome = true)

/-- Contract of the diff collaborator for line callbacks: an addition line
carries only a new number, a deletion line only an old number, and any
other origin both numbers. -/
def lineEventWF : DiffEvent → Bool
  | .line o _ ol nlno =>
    if o = '+' then ol.isNone && nlno.isSome
    else if o = '-' then ol.isSome && nlno.isNone
    else ol.isSome && nlno.isSome
  | _ => true

/-- A diff line built from a contract-satisfying collaborator line event
satisfies the line-number discipline. -/
theorem built_line_invariant (o : Char) (c : List Nat) (ol nlno : Option Nat)
    (h : lineEventWF (.line o c ol nlno) = true) :
    lineInvariant { content := c, line_type := lineTypeOf o,
                    old_line_no := ol, new_line_no := nlno } := by
  have h2 : (if o = '+' then ol.isNone && nlno.isSome
      else if o = '-' then ol.isSome && nlno.isNone
      else ol.isSome && nlno.isSome) = true := h
  clear h
  unfold lineInvariant
  dsimp only
  by_cases ho : o = '+'
  · rw [if_pos ho] at h2
    simp only [Bool.and_eq_true, Option.isNone_iff_eq_none] at h2
    have ht : lineTypeOf o = "add" := by unfold lineTypeOf; rw [if_pos ho]
    rw [ht]
    exact ⟨fun _ => h2.1, fun hd => absurd hd (by decide), fun hc => absurd hc (by decide)⟩
  · by_cases ho2 : o = '-'
    · rw [if_neg ho, if_pos ho2] at h2
      simp only [Bool.and_eq_true, Option.isNone_iff_eq_none] at h2
      have ht : lineTypeOf o = "delete" := by
        unfold lineTypeOf; rw [if_neg ho, if_pos ho2]
      rw [ht]
      exact ⟨fun ha => absurd ha (by decide), fun _ => h2.2, fun hc => absurd hc (by decide)⟩
    · rw [if_neg ho, if_neg ho2] at h2
      simp only [Bool.and_eq_true] at h2
      have ht : lineTypeOf o = "context" := by
        unfold lineTypeOf; rw [if_neg ho, if_neg ho2]
      rw [ht]
      exact ⟨fun ha => absurd ha (by decide), fun hd => absurd hd (by decide), fun _ => h2⟩

/-- Statement that every line of every hunk in the list satisfies `P`. -/
def hunksLinesInv (P : DiffLine → Prop) (hs : List DiffHunk) : Prop :=
  ∀ hk ∈ hs, ∀ l ∈ hk.lines, P l

/-- Appending a satisfying line to the last hunk preserves the line
predicate over all hunks. -/
theorem hunksLinesInv_appendToLast (P : DiffLine → Prop) (hs : List DiffHunk)
    (dl : DiffLine) (h : hunksLinesInv P hs) (hdl : P dl) :
    hunksLinesInv P (appendToLast hs dl) := by
  induction hs with
  | nil => intro hk hmem; simp [appendToLast] at hmem
  | cons h0 t ih =>
    cases t with
    | nil =>
      intro hk hmem l hl
      simp only [appendToLast, List.mem_singleton] at hmem
      subst hmem
      simp only [List.mem_append, List.mem_singleton] at hl
      rcases hl with hl | rfl
      · exact h h0 (by simp) l hl
      · exact hdl
    | cons h1 t1 =>
      intro hk hmem l hl
      simp only [appendToLast, List.mem_cons] at hmem
      rcases hmem with rfl | hmem
      · exact h hk (by simp) l hl
      · have hsub : hunksLinesInv P (h1 :: t1) := fun a ha => h a (by simp [ha])
        exact ih hsub hk hmem l hl

/-- One diff-walk step preserves the line-number discipline when the event
satisfies the collaborator contract. -/
theorem parse_diff_step_inv (st : List DiffHunk × Bool) (e : DiffEvent)
    (hst : hunksLinesInv lineInvariant st.1) (he : lineEventWF e = true) :
    hunksLinesInv lineInvariant (parse_diff_step st e).1 := by
  cases e with
  | delta b => exact hst
  | binary => exact hst
  | hunk os ol ns nls =>
    intro hk hmem l hl
    simp only [parse_diff_step, List.mem_append, List.mem_singleton] at hmem
    rcases hmem with hmem | rfl
    · exact hst hk hmem l hl
    · simp at hl
  | line o c ol nlno =>
    exact hunksLinesInv_appendToLast _ _ _ hst (built_line_invariant o c ol nlno he)

/-- The whole diff walk preserves the line-number discipline. -/
theorem parse_diff_fold_inv (evs : List DiffEvent) :
    ∀ st : List DiffHunk × Bool, hunksLinesInv lineInvariant st.1 →
      (∀ e ∈ evs, lineEventWF e = true) →
      hunksLinesInv lineInvariant (evs.foldl parse_diff_step st).1 := by
  induction evs with
  | nil => intro st hst _; exact hst
  | cons e t ih =>
    intro st hst hwf
    exact ih _ (parse_diff_step_inv st e hst (hwf e (by simp)))
      (fun x hx => hwf x (by simp [hx]))

/-- C9: every diff line produced by the builder respects the line-number
discipline: add lines carry no old number, delete lines carry no new
number, context lines carry both; for tracked comparisons this holds for
every collaborator stream satisfying the line-callback contract, and for
the untracked and deleted syntheses unconditionally. -/
theorem C9_line_number_discipline (fp : String) (evs : List DiffEvent)
    (content : List Nat) (bb : Bool)
    (hwf : ∀ e ∈ evs, lineEventWF e = true) :
    (∀ hk ∈ (parse_diff evs fp).hunks, ∀ l ∈ hk.lines, lineInvariant l) ∧
    (∀ hk ∈ (get_untracked_file_diff fp content).hunks, ∀ l ∈ hk.lines, lineInvariant l) ∧
    (∀ hk ∈ (get_deleted_file_diff fp bb content).hunks, ∀ l ∈ hk.lines, lineInvariant l) := by
  refine ⟨?_, ?_, ?_⟩
  · unfold parse_diff
    exact parse_diff_fold_inv evs ([], false) (by intro hk hmem; simp at hmem) hwf
  · cases hbin : is_binary_content content with
    | true =>
      rw [get_untracked_file_diff_binary fp content hbin]
      intro hk hmem; simp at hmem
    | false =>
      rw [get_untracked_file_diff_not_binary fp content hbin]
      intro hk hmem l hl
      rw [List.mem_singleton] at hmem
      subst hmem
      simp only [List.mem_map] at hl
      obtain ⟨p, _, rfl⟩ := hl
      refine ⟨fun _ => rfl, fun hd => ?_, fun hc => ?_⟩
      · rw [show (untrackedLine p).line_type = "add" from rfl] at hd
        exact absurd hd (by decide)
      · rw [show (untrackedLine p).line_type = "add" from rfl] at hc
        exact absurd hc (by decide)
  · cases hbin : (bb || is_binary_content content) with
    | true =>
      rw [get_deleted_file_diff_binary fp bb content hbin]
      intro hk hmem; simp at hmem
    | false =>
      rw [get_deleted_file_diff_not_binary fp bb content hbin]
      intro hk hmem l hl
      rw [List.mem_singleton] at hmem
      subst hmem
      simp only [List.mem_map] at hl
      obtain ⟨p, _, rfl⟩ := hl
      refine ⟨fun ha => ?_, fun _ => rfl, fun hc => ?_⟩
      · rw [show (deletedLine p).line_type = "delete" from rfl] at ha
        exact absurd ha (by decide)
      · rw [show (deletedLine p).line_type = "delete" from rfl] at hc
        exact absurd hc (by decide)

/-- Witness for the C9 theorem on a one-event collaborator stream and
one-byte content. -/
theorem C9_witness :
    (∀ e ∈ [DiffEvent.line '+' [0] none (some 1)], lineEventWF e = true) ∧
    (∀ hk ∈ (parse_diff [DiffEvent.line '+' [0] none (some 1)] "x").hunks,
      ∀ l ∈ hk.lines, lineInvariant l) :=
  ⟨by decide,
   (C9_line_number_discipline "x" [DiffEvent.line '+' [0] none (some 1)]
     [97] false (by decide)).1⟩

/-- Statement that the binary-kind tag of a diff is consistent with its
binary flag: populated with one of the three closed tags when binary,
absent when not. -/
def binaryTagOk (d : DiffInfo) : Prop :=
  (d.is_binary = true →
    d.binary_type = some "image" ∨ d.binary_type = some "pdf" ∨
    d.binary_type = some "other") ∧
  (d.is_binary = false → d.binary_type = none)

/-- The extension classifier is total over the three closed tags. -/
theorem get_binary_type_total (p : String) :
    get_binary_type p = some "image" ∨ get_binary_type p = some "pdf" ∨
    get_binary_type p = some "other" := by
  unfold get_binary_type
  dsimp only
  split
  · exact Or.inl rfl
  · split
    · exact Or.inr (Or.inl rfl)
    · exact Or.inr (Or.inr rfl)

/-- The binary-kind tag of a tracked-comparison diff is driven by its own
binary flag. -/
theorem parse_diff_binary_type (evs : List DiffEvent) (fp : String) :
    (parse_diff evs fp).binary_type =
      if (parse_diff evs fp).is_binary then get_binary_type fp else none := rfl

/-- C10: every diff produced by the builder has its binary-kind tag
populated with exactly image, pdf, or other whenever the binary flag is
set, because the extension classifier is total, and has no tag when the
flag is unset. -/
theorem C10_binary_tag_consistency (fp : String) (evs : List DiffEvent)
    (content : List Nat) (bb : Bool) :
    binaryTagOk (parse_diff evs fp) ∧
    binaryTagOk (get_untracked_file_diff fp content) ∧
    binaryTagOk (get_deleted_file_diff fp bb content) ∧
    (get_binary_type fp = some "image" ∨ get_binary_type fp = some "pdf" ∨
      get_binary_type fp = some "other") := by
  refine ⟨?_, ?_, ?_, get_binary_type_total fp⟩
  · refine ⟨fun hset => ?_, fun hunset => ?_⟩
    · rw [parse_diff_binary_type, hset, if_pos rfl]
      exact get_binary_type_total fp
    · rw [parse_diff_binary_type, hunset, if_neg (fun hh => Bool.noConfusion hh)]
  · cases hbin : is_binary_content content with
    | true =>
      have h2 : (get_untracked_file_diff fp content).binary_type = get_binary_type fp := by
        rw [get_untracked_file_diff_binary fp content hbin]
      refine ⟨fun _ => ?_, fun hc => ?_⟩
      · rw [h2]
        exact get_binary_type_total fp
      · have h1 : (get_untracked_file_diff fp content).is_binary = true := by
          rw [get_untracked_file_diff_binary fp content hbin]
        rw [h1] at hc
        exact Bool.noConfusion hc
    | false =>
      refine ⟨fun hset => ?_, fun _ => ?_⟩
      · have h1 : (get_untracked_file_diff fp content).is_binary = false := by
          rw [get_untracked_file_diff_not_binary fp content hbin]
        rw [h1] at hset
        exact Bool.noConfusion hset
      · rw [get_untracked_file_diff_not_binary fp content hbin]
  · cases hbin : (bb || is_binary_content content) with
    | true =>
      have h2 : (get_deleted_file_diff fp bb content).binary_type = get_binary_type fp := by
        rw [get_deleted_file_diff_binary fp bb content hbin]
      refine ⟨fun _ => ?_, fun hc => ?_⟩
      · rw [h2]
        exact get_binary_type_total fp
      · have h1 : (get_deleted_file_diff fp bb content).is_binary = true := by
          rw [get_deleted_file_diff_binary fp bb content hbin]
        rw [h1] at hc
        exact Bool.noConfusion hc
    | false =>
      refine ⟨fun hset => ?_, fun _ => ?_⟩
      · have h1 : (get_deleted_file_diff fp bb content).is_binary = false := by
          rw [get_deleted_file_diff_not_binary fp bb content hbin]
        rw [h1] at hset
        exact Bool.noConfusion hset
      · rw [get_deleted_file_diff_not_binary fp bb content hbin]

/-- Witness for the C10 theorem on an empty event stream and a one-byte
file. -/
theorem C10_witness :
    binaryTagOk (parse_diff [] "a.png") ∧
    binaryTagOk (get_untracked_file_diff "a.png" [0]) :=
  ⟨(C10_binary_tag_consistency "a.png" [] [0] false).1,
   (C10_binary_tag_consistency "a.png" [] [0] false).2.1⟩

/-- C8: a classified operation returns an error only when the subprocess
fails to spawn; every started process, whatever its exit status, yields an
ordinary classified result, and a non-zero exit in particular yields the
failure classification with success false. -/
theorem C8_err_only_on_spawn_failure (so se : List Char) (o : ProcOutput) :
    git_pull (some { exit_ok := false, stdout := so, stderr := se })
      = Except.ok (create_error_result se so) ∧
    git_push (some { exit_ok := false, stdout := so, stderr := se })
      = Except.ok (create_error_result se so) ∧
    (create_error_result se so).success = false ∧
    (okPart (git_pull (some o))).isSome = true ∧
    (okPart (git_push (some o))).isSome = true ∧
    (okPart (git_pull none)).isSome = false ∧
    (okPart (git_push none)).isSome = false := by
  refine ⟨by simp [git_pull, git_pull_classify],
          by simp [git_push, git_push_classify],
          create_error_result_success se so,
          by simp [git_pull, okPart], by simp [git_push, okPart],
          by simp [git_pull, okPart], by simp [git_push, okPart]⟩

end Forky
